import Mathlib

/-!
Verification of the smart-news-summarizer MCP server (`src/main.py`):
a FastAPI application exposing four news tools (`fetch_news`,
`summarize_articles`, `send_email`, `smart_news_email`) behind a JSON-RPC
endpoint `/jsonrpc` and a registry endpoint `/mcp/registry`, both guarded
by an `X-MCP-API-KEY` header check.

The Python source is shallowly embedded: JSON values are an inductive
`Json`; the external news API, the OpenAI chat completion and the SMTP
transport are oracles bundled in an `Env`; every outbound interaction a
handler performs (HTTP GET to the news API, LLM call, SMTP send, local
file write) is recorded in an effect trace; a Python exception is an
`Except.error` carrying the exception's string rendering.
-/

namespace SmartNews

/-- JSON values as produced by Python `json.loads`: object keys are
distinct strings and objects preserve insertion order, so an object is an
association list. Numbers in this development are integers (the only
numbers the program manipulates). -/
inductive Json where
  | null
  | bool (b : Bool)
  | num (n : Int)
  | str (s : String)
  | arr (items : List Json)
  | obj (fields : List (String × Json))
deriving Repr, BEq

/-- Python truthiness (`if not x`) of a JSON value: `None`, `False`, `0`,
`""`, `[]` and `{}` are falsy, everything else truthy. -/
def truthy : Json → Bool
  | .null => false
  | .bool b => b
  | .num n => n != 0
  | .str s => s != ""
  | .arr xs => !xs.isEmpty
  | .obj kvs => !kvs.isEmpty

/-- Field lookup in a JSON object (`d[k]` / `d.get(k)` on a parsed dict);
`none` when the value is not an object or the key is absent. -/
def jget (j : Json) (k : String) : Option Json :=
  match j with
  | .obj kvs => List.lookup k kvs
  | _ => none

/-- Python `repr()` of a JSON value, used by `str()` on lists and dicts. -/
def pyRepr : Json → String
  | .null => "None"
  | .bool true => "True"
  | .bool false => "False"
  | .num n => toString n
  | .str s => "'" ++ s ++ "'"
  | .arr xs => "[" ++ String.intercalate ", " (xs.attach.map fun x => pyRepr x.1) ++ "]"
  | .obj kvs => "\x7b" ++
      String.intercalate ", "
        (kvs.attach.map fun p => "'" ++ p.1.1 ++ "': " ++ pyRepr p.1.2) ++ "\x7d"
decreasing_by
  · have := List.sizeOf_lt_of_mem x.2
    simp only [Json.arr.sizeOf_spec]
    omega
  · have h1 := List.sizeOf_lt_of_mem p.2
    have h2 : sizeOf p.1.2 < sizeOf p.1 := by
      obtain ⟨a, b⟩ := p.1
      simp
    simp only [Json.obj.sizeOf_spec]
    omega

/-- Python `str()` of a JSON value, as interpolated by f-strings:
scalars print bare, lists and dicts print as their `repr`. -/
def pyStr : Json → String
  | .null => "None"
  | .bool true => "True"
  | .bool false => "False"
  | .num n => toString n
  | .str s => s
  | .arr xs => pyRepr (.arr xs)
  | .obj kvs => pyRepr (.obj kvs)

/-- Python `s.startswith(p)`: a Python string is a sequence of
characters, so this is list-prefix on the character lists. -/
def pyStartsWith (s p : String) : Bool :=
  p.toList.isPrefixOf s.toList

/-- The first `n` characters of a Python string removed (`s[n:]`). -/
def pyDrop (s : String) (n : Nat) : String :=
  String.mk (s.toList.drop n)

/-- Python `s.strip()`: surrounding whitespace removed. -/
def pyStrip (s : String) : String :=
  String.mk (((s.toList.dropWhile Char.isWhitespace).reverse.dropWhile
    Char.isWhitespace).reverse)

/-- The configuration the server reads at startup via `os.getenv`
(`main.py` lines 11–18): optional values are `Option String` because
`os.getenv` returns `None` for unset variables. `SMTP_HOST` and
`SMTP_PORT` have defaults. `NEWS_API_URL` is a constant, kept separate
below. -/
structure Config where
  OPENAI_API_KEY : Option String
  NEWS_API_KEY : Option String
  SMTP_USER : Option String
  SMTP_PASS : Option String
  SMTP_HOST : String
  SMTP_PORT : Int
  MCP_API_KEY : String

/-- The startup guard `if not MCP_API_KEY: raise RuntimeError(...)`
(`main.py` lines 20–21): the server only runs when the configured key is
a non-empty string. -/
def startupCheck (cfg : Config) : Bool :=
  cfg.MCP_API_KEY != ""

/-- The module-level `client = OpenAI(...) if OPENAI_API_KEY else None`
(`main.py` line 23): a client exists exactly when the key is set to a
truthy (non-empty) string. -/
def hasClient (cfg : Config) : Bool :=
  match cfg.OPENAI_API_KEY with
  | none => false
  | some s => s != ""

/-- Outbound interactions a handler performs, recorded in order:
the HTTP GET against the news API with its query string, the OpenAI
chat-completion call, the SMTP delivery (connection, login and send are
one interaction with the mail transport), and the local file write that
`smart_news_email` performs. -/
inductive Effect where
  | newsApiGet (url : String) (query : List (String × String))
  | llmCall (model : String) (systemPrompt : String) (userContent : String)
  | smtpSend (host : String) (port : Int) (fromAddr : Option String)
      (toAddr : String) (subject : String) (body : String)
  | fileWrite (filename : String) (content : String)
deriving Repr, BEq

/-- Responses of the external-world oracles. Each oracle returns `.ok` with
the successful call's outcome or `.error` with the string rendering of
the Python exception the call raised (network errors, `raise_for_status`,
JSON decoding, SMTP failures, ...). -/
structure Env where
  /-- The news API: given the `topic`, `date` and `count` arguments of
  `fetch_news_impl`, the decoded JSON body of a successful response
  (`r.raise_for_status(); r.json()`), or an exception. -/
  news : Json → String → Json → Except String Json
  /-- The chat completion: given the user-message text, the value of
  `resp.choices[0].message.content` (before `.strip()`), or an
  exception. -/
  llm : String → Except String String
  /-- The mail transport: given recipient, subject and body, success or
  an exception anywhere in connect/login/sendmail/quit. -/
  smtp : String → String → String → Except String Unit

/-- The result of running a handler: the returned JSON value or the
raised exception, together with the trace of outbound effects. -/
abbrev PResult (α : Type) := Except String α × List Effect

/-- The constant `NEWS_API_URL` (`main.py` line 18). -/
def NEWS_API_URL : String := "https://newsapi.org/v2/everything"

/-- The query string of the news-API request built by `fetch_news_impl`
(`main.py` line 52): insertion order `q`, `apiKey`, `pageSize`,
`language`, `from`, `to`; `requests` renders each value with `str()` and
omits a parameter whose value is `None` (an unset `NEWS_API_KEY`). -/
def newsQuery (cfg : Config) (topic : Json) (date : String) (count : Json) :
    List (String × String) :=
  [("q", pyStr topic)] ++
  (match cfg.NEWS_API_KEY with
   | none => []
   | some k => [("apiKey", k)]) ++
  [("pageSize", pyStr count), ("language", "en"), ("from", date), ("to", date)]

/-- Embedding of `fetch_news_impl` (`main.py` lines 49–56): one GET
against the news API; on a successful decoded response `body`, return
`body.get("articles", [])` — which raises `AttributeError` when `body`
is not a dict. `topic` and `count` are kept as JSON values because
Python passes them through untyped into the query string. -/
def fetch_news_impl (cfg : Config) (env : Env) (topic : Json) (date : String)
    (count : Json) : PResult Json :=
  let effs := [Effect.newsApiGet NEWS_API_URL (newsQuery cfg topic date count)]
  match env.news topic date count with
  | .error e => (.error e, effs)
  | .ok body =>
    match body with
    | .obj kvs => (.ok ((List.lookup "articles" kvs).getD (Json.arr [])), effs)
    | _ => (.error "AttributeError: object has no attribute get", effs)

/-- The fixed system prompt of `summarize_articles_impl`
(`main.py` lines 70–84). -/
def systemPrompt : String :=
  "You are a helpful assistant. " ++
  "Summarize each news item in 2-3 sentences. " ++
  "Output clean HTML with this format:\n" ++
  "<h2>Title</h2>\n" ++
  "<p><b>Date:</b> YYYY-MM-DD</p>\n" ++
  "<p><b>Summary:</b> ...</p>\n" ++
  "<p><a href='link'>Read More</a></p>\n" ++
  "<hr>\n"

/-- The per-article block of `news_text` (`main.py` line 63):
`a.get(...)` requires `a` to be a dict and yields `None` (printed
`None`) for absent keys; a non-dict article raises `AttributeError`. -/
def newsItemText (a : Json) : Except String String :=
  match a with
  | .obj kvs =>
    .ok ("Title: " ++ pyStr ((List.lookup "title" kvs).getD .null) ++
         "\nDate: " ++ pyStr ((List.lookup "publishedAt" kvs).getD .null) ++
         "\nContent: " ++ pyStr ((List.lookup "content" kvs).getD .null) ++
         "\nLink: " ++ pyStr ((List.lookup "url" kvs).getD .null))
  | _ => .error "AttributeError: object has no attribute get"

/-- The per-article blocks for a whole article list, failing on the
first non-dict article exactly as the generator inside `"\n\n".join`
does. -/
def newsItemTexts : List Json → Except String (List String)
  | [] => .ok []
  | a :: rest =>
    match newsItemText a with
    | .error e => .error e
    | .ok t =>
      match newsItemTexts rest with
      | .error e => .error e
      | .ok ts => .ok (t :: ts)

/-- Embedding of `summarize_articles_impl` (`main.py` lines 58–91), in
the source's evaluation order: the empty-list short circuit, then the
construction of `news_text` (which can raise), then the missing-client
short circuit, then one chat-completion call whose content is returned
stripped of surrounding whitespace. -/
def summarize_articles_impl (cfg : Config) (env : Env) (articles : List Json) :
    PResult String :=
  if articles.isEmpty then
    (.ok "<p>No news found for the selected topics/date.</p>", [])
  else
    match newsItemTexts articles with
    | .error e => (.error e, [])
    | .ok texts =>
      let news_text := String.intercalate "\n\n" texts
      if !hasClient cfg then
        (.ok "OpenAI API key missing", [])
      else
        let effs := [Effect.llmCall "gpt-4o-mini" systemPrompt news_text]
        match env.llm news_text with
        | .error e => (.error e, effs)
        | .ok content => (.ok (pyStrip content), effs)

/-- Embedding of `send_email_impl` (`main.py` lines 93–103): one
interaction with the mail transport (SMTP_SSL connect, login, sendmail,
quit), returning `{"sent": True}` on success. -/
def send_email_impl (cfg : Config) (env : Env) (to_email subject body : String) :
    PResult Json :=
  let effs := [Effect.smtpSend cfg.SMTP_HOST cfg.SMTP_PORT cfg.SMTP_USER
                 to_email subject body]
  match env.smtp to_email subject body with
  | .error e => (.error e, effs)
  | .ok _ => (.ok (Json.obj [("sent", Json.bool true)]), effs)

/-- Python `t["topic"]` on a JSON value: `KeyError` when the key is
absent, `TypeError` when `t` is not a dict. -/
def pyGetItem (t : Json) (k : String) : Except String Json :=
  match t with
  | .obj kvs =>
    match List.lookup k kvs with
    | some v => .ok v
    | none => .error ("KeyError: " ++ k)
  | _ => .error "TypeError: object is not subscriptable"

/-- Python `t.get(k, d)` on a dict (only reached after `t["topic"]`
succeeded, so `t` is a dict). -/
def pyGetD (t : Json) (k : String) (d : Json) : Json :=
  match t with
  | .obj kvs => (List.lookup k kvs).getD d
  | _ => d

/-- Python `all_articles.extend(articles)`: appends the elements of a
list; iterating a non-list (string characters, dict keys) or a
non-iterable follows Python semantics. -/
def pyExtend (acc : List Json) (j : Json) : Except String (List Json) :=
  match j with
  | .arr xs => .ok (acc ++ xs)
  | .str s => .ok (acc ++ s.toList.map fun c => Json.str (String.mk [c]))
  | .obj kvs => .ok (acc ++ kvs.map fun p => Json.str p.1)
  | _ => .error "TypeError: object is not iterable"

/-- The `for t in topics` accumulation loop of `smart_news_email_impl`
(`main.py` lines 106–109): fetch each topic's articles in list order
with `t["topic"]`, the same `date`, and `t.get("count", 5)`, extending
the accumulator; the first exception aborts the loop. -/
def fetchLoop (cfg : Config) (env : Env) (date : String) :
    List Json → List Json → PResult (List Json)
  | [], acc => (.ok acc, [])
  | t :: rest, acc =>
    match pyGetItem t "topic" with
    | .error e => (.error e, [])
    | .ok topic =>
      match fetch_news_impl cfg env topic date (pyGetD t "count" (Json.num 5)) with
      | (.error e, effs) => (.error e, effs)
      | (.ok articles, effs) =>
        match pyExtend acc articles with
        | .error e => (.error e, effs)
        | .ok acc2 =>
          let rec_ := fetchLoop cfg env date rest acc2
          (rec_.1, effs ++ rec_.2)

/-- Embedding of `smart_news_email_impl` (`main.py` lines 105–118):
fetch all topics, summarize the concatenation, write the summary to
`news_summary_<date>.html` (the write is modelled as always succeeding),
email it with subject `Daily News Summary - <date>`, and return the
status object. An exception at any stage aborts the remaining stages. -/
def smart_news_email_impl (cfg : Config) (env : Env) (date email : String)
    (topics : List Json) : PResult Json :=
  match fetchLoop cfg env date topics [] with
  | (.error e, effs) => (.error e, effs)
  | (.ok all_articles, effs) =>
    match summarize_articles_impl cfg env all_articles with
    | (.error e, effs2) => (.error e, effs ++ effs2)
    | (.ok summary_html, effs2) =>
      let filename := "news_summary_" ++ date ++ ".html"
      let effs3 := [Effect.fileWrite filename summary_html]
      match send_email_impl cfg env email ("Daily News Summary - " ++ date)
          summary_html with
      | (.error e, effs4) => (.error e, effs ++ effs2 ++ effs3 ++ effs4)
      | (.ok _, effs4) =>
        (.ok (Json.obj [("status", Json.str "success"),
                        ("file", Json.str filename)]),
         effs ++ effs2 ++ effs3 ++ effs4)

/-- Whether a JSON value is an object (a Python dict). -/
def Json.isObj : Json → Bool
  | .obj _ => true
  | _ => false

/-- One pydantic validation-error entry, as rendered into the JSON-RPC
error's `data` field by `json.loads(e.json())` (the detailed `type`
entry is abbreviated away; no claim inspects it). -/
def vErr (field msg : String) : Json :=
  Json.arr [Json.obj [("loc", Json.arr [Json.str field]), ("msg", Json.str msg)]]

/-- Validation of a required `str` field. Pydantic's version-dependent
scalar coercions are abstracted: a `str` field accepts exactly a JSON
string. -/
def vStr (kvs : List (String × Json)) (field : String) : Except Json String :=
  match List.lookup field kvs with
  | some (.str s) => .ok s
  | some _ => .error (vErr field "str type expected")
  | none => .error (vErr field "field required")

/-- Validation of an `int` field with a default: absent means the
default, present must be a JSON integer. -/
def vIntD (kvs : List (String × Json)) (field : String) (d : Int) :
    Except Json Int :=
  match List.lookup field kvs with
  | some (.num n) => .ok n
  | some _ => .error (vErr field "int type expected")
  | none => .ok d

/-- Abstraction of pydantic `EmailStr` validation: one `@` separating a
non-empty local part from a domain that has non-empty dot-separated
labels. -/
def isValidEmail (s : String) : Bool :=
  match s.toList.splitOn '@' with
  | [u, d] => !u.isEmpty && d.contains '.' && (d.splitOn '.').all fun p => !p.isEmpty
  | _ => false

/-- Validation of a required `EmailStr` field. -/
def vEmail (kvs : List (String × Json)) (field : String) : Except Json String :=
  match vStr kvs field with
  | .error e => .error e
  | .ok s =>
    if isValidEmail s then .ok s
    else .error (vErr field "value is not a valid email address")

/-- Validation of one element of `topics: List[TopicCount]`
(`main.py` lines 40–42): a dict with a required `topic: str` and a
`count: int` defaulting to 5. The result is the element as rendered by
`model.dict()`: both fields present, in declaration order. -/
def vTopicCount (x : Json) : Except Json Json :=
  match x with
  | .obj kvs =>
    match vStr kvs "topic" with
    | .error e => .error e
    | .ok t =>
      match vIntD kvs "count" 5 with
      | .error e => .error e
      | .ok c => .ok (Json.obj [("topic", Json.str t), ("count", Json.num c)])
  | _ => .error (vErr "topics" "value is not a valid dict")

/-- Validation of every element of a `topics` list. -/
def vTopicCounts : List Json → Except Json (List Json)
  | [] => .ok []
  | x :: rest =>
    match vTopicCount x with
    | .error e => .error e
    | .ok v =>
      match vTopicCounts rest with
      | .error e => .error e
      | .ok vs => .ok (v :: vs)

/-- The keyword arguments a handler receives after validation, i.e. the
content of `model.dict()` unpacked by `**` into the handler's typed
parameters (`main.py` line 167). -/
inductive ValidatedArgs where
  | fetchNews (topic : String) (date : String) (count : Int)
  | summarize (articles : List Json)
  | sendEmail (to_email : String) (subject : String) (body : String)
  | smartNews (date : String) (email : String) (topics : List Json)

/-- The four pydantic parameter models (`main.py` lines 27–47). -/
inductive ParamsModel where
  | fetchNewsParams
  | summarizeParams
  | sendEmailParams
  | smartNewsEmailParams
deriving Repr, DecidableEq

/-- Validation of a JSON object's fields against a parameter model —
the `TOOLS_MODELS[tool_name](**params)` step. Fields are validated in
declaration order; extra fields are ignored (pydantic's default);
success yields the handler's keyword arguments with defaults filled
in. -/
def pmValidate : ParamsModel → List (String × Json) → Except Json ValidatedArgs
  | .fetchNewsParams, kvs => do
    let topic ← vStr kvs "topic"
    let date ← vStr kvs "date"
    let count ← vIntD kvs "count" 5
    pure (.fetchNews topic date count)
  | .summarizeParams, kvs =>
    (match List.lookup "articles" kvs with
     | some (.arr xs) =>
       if xs.all Json.isObj then .ok (.summarize xs)
       else .error (vErr "articles" "value is not a valid dict")
     | some _ => .error (vErr "articles" "value is not a valid list")
     | none => .error (vErr "articles" "field required"))
  | .sendEmailParams, kvs => do
    let to_email ← vEmail kvs "to_email"
    let subject ← vStr kvs "subject"
    let body ← vStr kvs "body"
    pure (.sendEmail to_email subject body)
  | .smartNewsEmailParams, kvs => do
    let date ← vStr kvs "date"
    let email ← vEmail kvs "email"
    let topics ←
      match List.lookup "topics" kvs with
      | some (.arr xs) => vTopicCounts xs
      | some _ => .error (vErr "topics" "value is not a valid list")
      | none => .error (vErr "topics" "field required")
    pure (.smartNews date email topics)

/-- The JSON schema `Model.schema()` published in the registry metadata
(`main.py` lines 135–140), modelling pydantic's rendering of the four
model classes. -/
def ParamsModel.schema : ParamsModel → Json
  | .fetchNewsParams =>
    Json.obj [("title", .str "FetchNewsParams"), ("type", .str "object"),
      ("properties", .obj
        [("topic", .obj [("title", .str "Topic"), ("type", .str "string")]),
         ("date", .obj [("title", .str "Date"), ("type", .str "string")]),
         ("count", .obj [("title", .str "Count"), ("default", .num 5),
                         ("type", .str "integer")])]),
      ("required", .arr [.str "topic", .str "date"])]
  | .summarizeParams =>
    Json.obj [("title", .str "SummarizeParams"), ("type", .str "object"),
      ("properties", .obj
        [("articles", .obj [("title", .str "Articles"), ("type", .str "array"),
                            ("items", .obj [("type", .str "object")])])]),
      ("required", .arr [.str "articles"])]
  | .sendEmailParams =>
    Json.obj [("title", .str "SendEmailParams"), ("type", .str "object"),
      ("properties", .obj
        [("to_email", .obj [("title", .str "To Email"), ("type", .str "string"),
                            ("format", .str "email")]),
         ("subject", .obj [("title", .str "Subject"), ("type", .str "string")]),
         ("body", .obj [("title", .str "Body"), ("type", .str "string")])]),
      ("required", .arr [.str "to_email", .str "subject", .str "body"])]
  | .smartNewsEmailParams =>
    Json.obj [("title", .str "SmartNewsEmailParams"), ("type", .str "object"),
      ("properties", .obj
        [("date", .obj [("title", .str "Date"), ("type", .str "string")]),
         ("email", .obj [("title", .str "Email"), ("type", .str "string"),
                         ("format", .str "email")]),
         ("topics", .obj [("title", .str "Topics"), ("type", .str "array"),
                          ("items", .obj [("ref", .str "TopicCount")])])]),
      ("required", .arr [.str "date", .str "email", .str "topics"]),
      ("definitions", .obj
        [("TopicCount", .obj [("title", .str "TopicCount"), ("type", .str "object"),
          ("properties", .obj
            [("topic", .obj [("title", .str "Topic"), ("type", .str "string")]),
             ("count", .obj [("title", .str "Count"), ("default", .num 5),
                             ("type", .str "integer")])]),
          ("required", .arr [.str "topic"])])])]

/-- The type of a registered handler as the dispatcher calls it:
configuration, external-world oracles, and the validated keyword
arguments. -/
abbrev ToolImpl := Config → Env → ValidatedArgs → PResult Json

/-- The `fetch_news` entry of `TOOLS_IMPL`: unpacking `**model.dict()`
into `fetch_news_impl(topic, date, count)`; arguments of the wrong
model would raise `TypeError` (unreachable through the dispatcher). -/
def fetch_news_tool : ToolImpl := fun cfg env args =>
  match args with
  | .fetchNews topic date count =>
    fetch_news_impl cfg env (.str topic) date (.num count)
  | _ => (.error "TypeError: unexpected keyword argument", [])

/-- The `summarize_articles` entry of `TOOLS_IMPL`: the returned Python
`str` is a JSON string in the response. -/
def summarize_articles_tool : ToolImpl := fun cfg env args =>
  match args with
  | .summarize arts =>
    match summarize_articles_impl cfg env arts with
    | (.ok s, effs) => (.ok (.str s), effs)
    | (.error e, effs) => (.error e, effs)
  | _ => (.error "TypeError: unexpected keyword argument", [])

/-- The `send_email` entry of `TOOLS_IMPL`. -/
def send_email_tool : ToolImpl := fun cfg env args =>
  match args with
  | .sendEmail to_email subject body =>
    send_email_impl cfg env to_email subject body
  | _ => (.error "TypeError: unexpected keyword argument", [])

/-- The `smart_news_email` entry of `TOOLS_IMPL`. -/
def smart_news_email_tool : ToolImpl := fun cfg env args =>
  match args with
  | .smartNews date email topics =>
    smart_news_email_impl cfg env date email topics
  | _ => (.error "TypeError: unexpected keyword argument", [])

/-- The handler registry `TOOLS_IMPL` (`main.py` lines 121–126). -/
def TOOLS_IMPL : List (String × ToolImpl) :=
  [("fetch_news", fetch_news_tool),
   ("summarize_articles", summarize_articles_tool),
   ("send_email", send_email_tool),
   ("smart_news_email", smart_news_email_tool)]

/-- The parameter-model registry `TOOLS_MODELS` (`main.py` lines
128–133). -/
def TOOLS_MODELS : List (String × ParamsModel) :=
  [("fetch_news", .fetchNewsParams),
   ("summarize_articles", .summarizeParams),
   ("send_email", .sendEmailParams),
   ("smart_news_email", .smartNewsEmailParams)]

/-- The metadata registry `TOOLS_METADATA` (`main.py` lines 135–140):
each entry repeats the tool name, gives a description, and embeds the
schema of the tool's parameter model. -/
def TOOLS_METADATA : List (String × Json) :=
  [("fetch_news", Json.obj
     [("name", .str "fetch_news"),
      ("description", .str "Fetch news articles"),
      ("params_schema", ParamsModel.fetchNewsParams.schema)]),
   ("summarize_articles", Json.obj
     [("name", .str "summarize_articles"),
      ("description", .str "Summarize articles with OpenAI"),
      ("params_schema", ParamsModel.summarizeParams.schema)]),
   ("send_email", Json.obj
     [("name", .str "send_email"),
      ("description", .str "Send HTML email via SMTP"),
      ("params_schema", ParamsModel.sendEmailParams.schema)]),
   ("smart_news_email", Json.obj
     [("name", .str "smart_news_email"),
      ("description", .str "Fetch multiple topics, summarize, save HTML, and send email"),
      ("params_schema", ParamsModel.smartNewsEmailParams.schema)])]

/-- What an endpoint hands back to FastAPI: the 401 raised by
`check_api_key`, an uncaught Python exception (HTTP 500), or a JSON
response body. -/
inductive EndpointResult where
  | unauthorized
  | crash (e : String)
  | reply (body : Json)
deriving Repr, BEq

/-- Embedding of `check_api_key` (`main.py` lines 143–145): `true` when
the request passes, i.e. the header is present, truthy, and equal to the
configured key. -/
def check_api_key (cfg : Config) (hdr : Option String) : Bool :=
  match hdr with
  | none => false
  | some s => s != "" && s == cfg.MCP_API_KEY

/-- Embedding of the `GET /mcp/registry` endpoint (`main.py` lines
148–151). -/
def get_registry (cfg : Config) (hdr : Option String) : EndpointResult :=
  if check_api_key cfg hdr then
    .reply (Json.obj [("tools", Json.obj TOOLS_METADATA)])
  else .unauthorized

/-- Outcome of the `try` block of `handle_jsonrpc`: a handler result, a
caught `ValidationError`, or any other caught exception. -/
inductive ToolOutcome where
  | success (r : Json)
  | invalidParams (data : Json)
  | serverError (e : String)

/-- The `try` block of `handle_jsonrpc` (`main.py` lines 165–167) for a
registered tool: look up the parameter model, unpack `**params` (a
non-dict raises `TypeError`, caught by the generic `except`), validate,
look up and invoke the handler. Exceptions raised by the handler are
caught by the generic `except` as well. -/
def runTool (cfg : Config) (env : Env) (name : String) (params : Json) :
    ToolOutcome × List Effect :=
  match List.lookup name TOOLS_MODELS with
  | none => (.serverError ("KeyError: " ++ name), [])
  | some m =>
    match params with
    | .obj pkvs =>
      match pmValidate m pkvs with
      | .error data => (.invalidParams data, [])
      | .ok args =>
        match List.lookup name TOOLS_IMPL with
        | none => (.serverError ("KeyError: " ++ name), [])
        | some impl =>
          match impl cfg env args with
          | (.ok r, effs) => (.success r, effs)
          | (.error e, effs) => (.serverError e, effs)
    | _ => (.serverError "TypeError: argument after ** must be a mapping", [])

/-- A success envelope (`main.py` line 168). -/
def okEnvelope (rid : Json) (r : Json) : Json :=
  Json.obj [("jsonrpc", .str "2.0"), ("id", rid), ("result", r)]

/-- An error envelope (`main.py` lines 161, 164, 170, 172); the
`-32601` envelopes carry no `data` member. -/
def errEnvelope (rid : Json) (code : Int) (msg : String) (data : Option Json) :
    Json :=
  Json.obj [("jsonrpc", .str "2.0"), ("id", rid),
    ("error", Json.obj
      ([("code", .num code), ("message", .str msg)] ++
       match data with
       | none => []
       | some d => [("data", d)]))]

/-- The envelope for each outcome of the `try` block (`main.py` lines
168–172). -/
def outcomeEnvelope (rid : Json) : ToolOutcome → Json
  | .success r => okEnvelope rid r
  | .invalidParams d => errEnvelope rid (-32602) "Invalid params" (some d)
  | .serverError e => errEnvelope rid (-32000) "Server error" (some (.str e))

/-- The body of the `POST /jsonrpc` endpoint after the API-key guard
(`main.py` lines 156–172). The payload is the decoded request body;
`payload.get` on a non-dict raises (HTTP 500), a falsy or `tool.`-less
`method` is `-32601 Method not found` (`.startswith` on a truthy
non-string raises), an unregistered tool is `-32601 Tool not found`,
and a registered tool runs through `runTool`. Since a string passing
`startswith("tool.")` has its first dot at index 4,
`method.split(".", 1)[1]` is the string it holds after `tool.`. -/
def dispatch_body (cfg : Config) (env : Env) (payload : Json) :
    EndpointResult × List Effect :=
  match payload with
    | .obj kvs =>
      let req_id := (List.lookup "id" kvs).getD Json.null
      let method := (List.lookup "method" kvs).getD Json.null
      let params := (List.lookup "params" kvs).getD (Json.obj [])
      if !truthy method then
        (.reply (errEnvelope req_id (-32601) "Method not found" none), [])
      else
        match method with
        | .str m =>
          if !pyStartsWith m "tool." then
            (.reply (errEnvelope req_id (-32601) "Method not found" none), [])
          else
            let tool_name := pyDrop m 5
            if (List.lookup tool_name TOOLS_IMPL).isSome then
              let out := runTool cfg env tool_name params
              (.reply (outcomeEnvelope req_id out.1), out.2)
            else
              (.reply (errEnvelope req_id (-32601) "Tool not found" none), [])
        | _ => (.crash "AttributeError: object has no attribute startswith", [])
    | _ => (.crash "AttributeError: object has no attribute get", [])

/-- Embedding of the `POST /jsonrpc` endpoint (`main.py` lines 153–172):
the API-key guard, then the dispatch body. -/
def handle_jsonrpc (cfg : Config) (env : Env) (hdr : Option String)
    (payload : Json) : EndpointResult × List Effect :=
  if !check_api_key cfg hdr then (.unauthorized, [])
  else dispatch_body cfg env payload

/-! ## Derived notions used by the statements -/

/-- The id the dispatcher echoes: the payload's `id` member, `null` when
absent (`payload.get("id")`). -/
def reqIdOf (payload : Json) : Json :=
  match payload with
  | .obj kvs => (List.lookup "id" kvs).getD .null
  | _ => .null

/-- Whether supplied params validate against a parameter model in
pydantic's sense (`parse_obj`): a non-dict value never validates. -/
def paramsValidate (m : ParamsModel) (params : Json) : Bool :=
  match params with
  | .obj pkvs =>
    match pmValidate m pkvs with
    | .ok _ => true
    | .error _ => false
  | _ => false

/-- The `code` member of the `error` object of a reply, when there is
one. -/
def replyErrorCode (r : EndpointResult × List Effect) : Option Json :=
  match r with
  | (.reply b, _) => (jget b "error").bind fun e => jget e "code"
  | _ => none

/-- Whether an effect is a call to one of the three external services
(news API, LLM, SMTP) — as opposed to a write on the server's own
filesystem. -/
def Effect.isExternalCall : Effect → Bool
  | .fileWrite _ _ => false
  | _ => true

/-- The JSON-RPC envelope obligations on a response body `b` for a
request id `rid`: a JSON object carrying `jsonrpc: "2.0"`, the request's
id, and exactly one of `result` and `error`. -/
def EnvelopeShape (rid b : Json) : Prop :=
  ∃ bf, b = Json.obj bf ∧
    List.lookup "jsonrpc" bf = some (Json.str "2.0") ∧
    List.lookup "id" bf = some rid ∧
    ((∃ v, List.lookup "result" bf = some v) ∧ List.lookup "error" bf = none ∨
     List.lookup "result" bf = none ∧ ∃ v, List.lookup "error" bf = some v)

/-! ## Concrete fixtures for witnesses and counterexamples -/

/-- A fully populated configuration. -/
def cfgEx : Config :=
  ⟨some "sk-test", some "nk", some "news@example.com", some "pw",
   "smtp.example.com", 465, "k"⟩

/-- A configuration with no OpenAI key. -/
def cfgNoKey : Config :=
  ⟨none, some "nk", some "news@example.com", some "pw",
   "smtp.example.com", 465, "k"⟩

/-- An environment where every external call succeeds and the news API
returns one article. -/
def envEx : Env :=
  ⟨fun _ _ _ => .ok (Json.obj [("articles",
      Json.arr [Json.obj [("title", Json.str "t1")]])]),
   fun _ => .ok " S ",
   fun _ _ _ => .ok ()⟩

/-- An environment whose news API returns no articles. -/
def envNoNews : Env :=
  ⟨fun _ _ _ => .ok (Json.obj [("articles", Json.arr [])]),
   fun _ => .ok "S",
   fun _ _ _ => .ok ()⟩

/-- An environment where every external call raises. -/
def envDown : Env :=
  ⟨fun _ _ _ => .error "requests.exceptions.ConnectTimeout",
   fun _ => .error "openai.APIConnectionError",
   fun _ _ _ => .error "smtplib.SMTPAuthenticationError"⟩

/-! ## Helper lemmas -/

/-- A string starting with `tool.` is non-empty, hence truthy. -/
theorem truthy_str_of_tool (s : String) (h : pyStartsWith s "tool." = true) :
    truthy (.str s) = true := by
  obtain ⟨cs⟩ := s
  cases cs with
  | nil => simp [pyStartsWith, List.isPrefixOf] at h
  | cons c cs =>
    show (String.mk (c :: cs) != "") = true
    rw [bne_iff_ne]
    intro heq
    exact List.noConfusion (congrArg String.data heq)

/-- A success envelope has the JSON-RPC shape. -/
theorem envelopeShape_ok (rid r : Json) : EnvelopeShape rid (okEnvelope rid r) :=
  ⟨_, rfl, rfl, rfl, Or.inl ⟨⟨r, rfl⟩, rfl⟩⟩

/-- An error envelope has the JSON-RPC shape. -/
theorem envelopeShape_err (rid : Json) (code : Int) (msg : String)
    (dataOpt : Option Json) : EnvelopeShape rid (errEnvelope rid code msg dataOpt) :=
  ⟨_, rfl, rfl, rfl, Or.inr ⟨rfl, ⟨_, rfl⟩⟩⟩

/-- Every outcome envelope has the JSON-RPC shape. -/
theorem envelopeShape_outcome (rid : Json) (out : ToolOutcome) :
    EnvelopeShape rid (outcomeEnvelope rid out) := by
  cases out with
  | success r => exact envelopeShape_ok rid r
  | invalidParams d => exact envelopeShape_err rid (-32602) "Invalid params" (some d)
  | serverError e => exact envelopeShape_err rid (-32000) "Server error" (some (.str e))

/-- The dispatch body never yields the 401 outcome (that outcome is the
guard's alone). -/
theorem dispatch_body_ne_unauthorized (cfg : Config) (env : Env) (payload : Json) :
    (dispatch_body cfg env payload).1 ≠ .unauthorized := by
  cases payload <;> simp only [dispatch_body] <;> (repeat' split) <;> simp

/-- Article lists whose members are all objects format without
raising. -/
theorem newsItemTexts_ok (arts : List Json) (h : ∀ a ∈ arts, a.isObj = true) :
    ∃ ts, newsItemTexts arts = .ok ts := by
  induction arts with
  | nil => exact ⟨[], rfl⟩
  | cons a rest ih =>
    have ha : a.isObj = true := h a (List.mem_cons_self a rest)
    obtain ⟨ts, hts⟩ := ih fun x hx => h x (List.mem_cons_of_mem a hx)
    cases a with
    | obj kvs =>
      refine ⟨("Title: " ++ pyStr ((List.lookup "title" kvs).getD Json.null) ++
        "\nDate: " ++ pyStr ((List.lookup "publishedAt" kvs).getD Json.null) ++
        "\nContent: " ++ pyStr ((List.lookup "content" kvs).getD Json.null) ++
        "\nLink: " ++ pyStr ((List.lookup "url" kvs).getD Json.null)) :: ts, ?_⟩
      simp [newsItemTexts, newsItemText, hts]
    | null => simp [Json.isObj] at ha
    | bool b => simp [Json.isObj] at ha
    | num n => simp [Json.isObj] at ha
    | str s => simp [Json.isObj] at ha
    | arr xs => simp [Json.isObj] at ha

/-- C3: both endpoints are behind the API-key check. A request whose
`X-MCP-API-KEY` header is missing or differs from the configured
`MCP_API_KEY` is answered 401 with nothing dispatched (no effect); a
request carrying exactly the configured key (non-empty by the startup
guard) is never rejected by this check. -/
theorem api_key_guards_endpoints (cfg : Config) (env : Env) (payload : Json)
    (hdr : Option String) (hstartup : startupCheck cfg = true) :
    ((∀ s, hdr = some s → s ≠ cfg.MCP_API_KEY) →
       handle_jsonrpc cfg env hdr payload = (.unauthorized, []) ∧
       get_registry cfg hdr = .unauthorized) ∧
    (hdr = some cfg.MCP_API_KEY →
       (handle_jsonrpc cfg env hdr payload).1 ≠ .unauthorized ∧
       get_registry cfg hdr ≠ .unauthorized) := by
  constructor
  · intro hdiff
    have hc : check_api_key cfg hdr = false := by
      cases hdr with
      | none => rfl
      | some s =>
        have hs : s ≠ cfg.MCP_API_KEY := hdiff s rfl
        simp [check_api_key, hs]
    constructor
    · simp [handle_jsonrpc, hc]
    · simp [get_registry, hc]
  · intro heq
    subst heq
    have hne : cfg.MCP_API_KEY ≠ "" := by
      simpa [startupCheck] using hstartup
    have hc : check_api_key cfg (some cfg.MCP_API_KEY) = true := by
      simp [check_api_key, hne]
    constructor
    · simp only [handle_jsonrpc, hc, Bool.not_true, Bool.false_eq_true,
        if_false]
      exact dispatch_body_ne_unauthorized cfg env payload
    · simp [get_registry, hc]

/-- C3 witness: with the key configured as `k`, a request with the wrong
header is 401 with no dispatch on both endpoints, and a request with
header `k` is not rejected. -/
theorem api_key_guards_endpoints_witness :
    (handle_jsonrpc cfgEx envEx (some "wrong") (Json.obj []) = (.unauthorized, []) ∧
     get_registry cfgEx (some "wrong") = .unauthorized) ∧
    ((handle_jsonrpc cfgEx envEx (some "k") (Json.obj [])).1 ≠ .unauthorized ∧
     get_registry cfgEx (some "k") ≠ .unauthorized) :=
  ⟨(api_key_guards_endpoints cfgEx envEx (Json.obj []) (some "wrong") rfl).1
     (by intro s hs hk; cases hs; simp [cfgEx] at hk),
   (api_key_guards_endpoints cfgEx envEx (Json.obj []) (some "k") rfl).2 rfl⟩

/-- C10: summarizing the empty article list returns the fixed no-news
HTML paragraph with no LLM call; summarizing a non-empty list of
article objects with no OpenAI key configured returns the fixed string
`OpenAI API key missing`, again with no LLM call. -/
theorem summarize_short_circuits (cfg : Config) (env : Env) :
    summarize_articles_impl cfg env [] =
      (.ok "<p>No news found for the selected topics/date.</p>", []) ∧
    (∀ arts, arts ≠ [] → (∀ a ∈ arts, a.isObj = true) →
       cfg.OPENAI_API_KEY = none →
       summarize_articles_impl cfg env arts = (.ok "OpenAI API key missing", [])) := by
  constructor
  · rfl
  · intro arts hne hobj hkey
    obtain ⟨ts, hts⟩ := newsItemTexts_ok arts hobj
    have hclient : hasClient cfg = false := by simp [hasClient, hkey]
    simp [summarize_articles_impl, List.isEmpty_iff, hne, hts, hclient]

/-- C10 witness: the two short circuits at concrete inputs. -/
theorem summarize_short_circuits_witness :
    summarize_articles_impl cfgNoKey envEx [] =
      (.ok "<p>No news found for the selected topics/date.</p>", []) ∧
    summarize_articles_impl cfgNoKey envEx [Json.obj [("title", Json.str "t")]] =
      (.ok "OpenAI API key missing", []) :=
  ⟨(summarize_short_circuits cfgNoKey envEx).1,
   (summarize_short_circuits cfgNoKey envEx).2 [Json.obj [("title", Json.str "t")]]
     (by simp) (by simp [Json.isObj]) rfl⟩

/-- C2: every JSON response of `/jsonrpc` is a standard envelope —
`jsonrpc: "2.0"`, the request's `id` (`null` when absent), and exactly
one of `result` and `error` — and when the invoked handler raises any
exception, the caller receives an error envelope with code `-32000` and
message `Server error` instead of the exception propagating. -/
theorem jsonrpc_envelope_wraps_outcomes :
    (∀ (cfg : Config) (env : Env) (hdr : Option String) (payload b : Json)
       (effs : List Effect),
       handle_jsonrpc cfg env hdr payload = (.reply b, effs) →
       EnvelopeShape (reqIdOf payload) b) ∧
    (∀ (cfg : Config) (env : Env) (hdr : Option String)
       (kvs pkvs : List (String × Json)) (mstr name : String) (m : ParamsModel)
       (impl : ToolImpl) (args : ValidatedArgs) (e : String) (effs : List Effect),
       check_api_key cfg hdr = true →
       List.lookup "method" kvs = some (.str mstr) →
       pyStartsWith mstr "tool." = true →
       pyDrop mstr 5 = name →
       List.lookup "params" kvs = some (.obj pkvs) →
       List.lookup name TOOLS_MODELS = some m →
       List.lookup name TOOLS_IMPL = some impl →
       pmValidate m pkvs = .ok args →
       impl cfg env args = (.error e, effs) →
       handle_jsonrpc cfg env hdr (.obj kvs) =
         (.reply (errEnvelope ((List.lookup "id" kvs).getD .null) (-32000)
            "Server error" (some (.str e))), effs)) := by
  constructor
  · intro cfg env hdr payload b effs h
    unfold handle_jsonrpc at h
    cases hc : check_api_key cfg hdr with
    | false => rw [hc] at h; simp at h
    | true =>
      rw [hc] at h
      simp only [Bool.not_true, Bool.false_eq_true, if_false] at h
      rcases payload with _ | _ | _ | _ | _ | kvs
      case obj =>
        show EnvelopeShape ((List.lookup "id" kvs).getD Json.null) b
        simp only [dispatch_body] at h
        split at h
        · injection h with h1 h2
          injection h1 with hb
          exact hb ▸ envelopeShape_err _ _ _ _
        · split at h
          · split at h
            · injection h with h1 h2
              injection h1 with hb
              exact hb ▸ envelopeShape_err _ _ _ _
            · split at h
              · injection h with h1 h2
                injection h1 with hb
                exact hb ▸ envelopeShape_outcome _ _
              · injection h with h1 h2
                injection h1 with hb
                exact hb ▸ envelopeShape_err _ _ _ _
          · simp at h
      all_goals simp [dispatch_body] at h
  · intro cfg env hdr kvs pkvs mstr name m impl args e effs hauth hmethod hpre
      hname hparams hm himpl hval hrun
    have htr := truthy_str_of_tool mstr hpre
    have himplSome : (List.lookup name TOOLS_IMPL).isSome = true := by
      rw [himpl]; rfl
    simp only [handle_jsonrpc, hauth, Bool.not_true, Bool.false_eq_true,
      if_false, dispatch_body, hmethod, Option.getD_some, htr, hpre, hname,
      himplSome, if_true, runTool, hm, hparams, hval, himpl, hrun,
      Option.isSome_some, outcomeEnvelope]

/-- C2 witness: a successful `fetch_news` call is wrapped in a
well-shaped result envelope, and the same call against a failing news
API is wrapped in a `-32000 Server error` envelope. -/
theorem jsonrpc_envelope_wraps_outcomes_witness :
    EnvelopeShape
      (reqIdOf (Json.obj [("id", Json.num 1),
        ("method", Json.str "tool.fetch_news"),
        ("params", Json.obj [("topic", Json.str "ai"), ("date", Json.str "d")])]))
      (okEnvelope (Json.num 1) (Json.arr [Json.obj [("title", Json.str "t1")]])) ∧
    handle_jsonrpc cfgEx envDown (some "k")
      (Json.obj [("id", Json.num 1), ("method", Json.str "tool.fetch_news"),
        ("params", Json.obj [("topic", Json.str "ai"), ("date", Json.str "d")])]) =
      (.reply (errEnvelope (Json.num 1) (-32000) "Server error"
         (some (.str "requests.exceptions.ConnectTimeout"))),
       [Effect.newsApiGet NEWS_API_URL
          [("q", "ai"), ("apiKey", "nk"), ("pageSize", "5"), ("language", "en"),
           ("from", "d"), ("to", "d")]]) :=
  ⟨jsonrpc_envelope_wraps_outcomes.1 cfgEx envEx (some "k")
     (Json.obj [("id", Json.num 1), ("method", Json.str "tool.fetch_news"),
       ("params", Json.obj [("topic", Json.str "ai"), ("date", Json.str "d")])])
     (okEnvelope (Json.num 1) (Json.arr [Json.obj [("title", Json.str "t1")]]))
     [Effect.newsApiGet NEWS_API_URL
        [("q", "ai"), ("apiKey", "nk"), ("pageSize", "5"), ("language", "en"),
         ("from", "d"), ("to", "d")]]
     (by rfl),
   jsonrpc_envelope_wraps_outcomes.2 cfgEx envDown (some "k")
     [("id", Json.num 1), ("method", Json.str "tool.fetch_news"),
      ("params", Json.obj [("topic", Json.str "ai"), ("date", Json.str "d")])]
     [("topic", Json.str "ai"), ("date", Json.str "d")]
     "tool.fetch_news" "fetch_news" .fetchNewsParams fetch_news_tool
     (.fetchNews "ai" "d" 5) "requests.exceptions.ConnectTimeout"
     [Effect.newsApiGet NEWS_API_URL
        [("q", "ai"), ("apiKey", "nk"), ("pageSize", "5"), ("language", "en"),
         ("from", "d"), ("to", "d")]]
     rfl rfl (by decide) (by decide) rfl rfl rfl rfl rfl⟩

/-- C1 counterexample: a request naming the registered tool
`fetch_news` whose params are a JSON array. The params do not validate
against the tool's parameter model (pydantic rejects a non-dict), yet
the response is a `-32000 Server error` envelope — not the claimed
`-32602 Invalid params` — because `**params` raises `TypeError`, which
the dispatcher's generic `except Exception` catches first. (The handler
is still never invoked: the effect trace is empty.) -/
theorem array_params_give_server_error :
    paramsValidate .fetchNewsParams (Json.arr []) = false ∧
    handle_jsonrpc cfgEx envEx (some "k")
      (Json.obj [("id", Json.num 1), ("method", Json.str "tool.fetch_news"),
                 ("params", Json.arr [])]) =
      (.reply (errEnvelope (Json.num 1) (-32000) "Server error"
         (some (.str "TypeError: argument after ** must be a mapping"))), []) ∧
    replyErrorCode (handle_jsonrpc cfgEx envEx (some "k")
      (Json.obj [("id", Json.num 1), ("method", Json.str "tool.fetch_news"),
                 ("params", Json.arr [])])) = some (Json.num (-32000)) :=
  ⟨rfl, rfl, rfl⟩

/-- C1 (amended): for every request naming a registered tool whose
supplied params are a JSON object that does not validate against the
tool's parameter model, the response is a JSON-RPC error envelope with
code `-32602` and message `Invalid params`, and the tool's handler is
never invoked — the effect trace is empty, so no external call or state
change happens. (Params that are not a JSON object instead produce the
`-32000 Server error` envelope of the counterexample, likewise without
invoking the handler.) -/
theorem invalid_object_params_rejected (cfg : Config) (env : Env)
    (hdr : Option String) (kvs pkvs : List (String × Json)) (mstr name : String)
    (m : ParamsModel) (data : Json)
    (hauth : check_api_key cfg hdr = true)
    (hmethod : List.lookup "method" kvs = some (.str mstr))
    (hpre : pyStartsWith mstr "tool." = true)
    (hname : pyDrop mstr 5 = name)
    (himpl : (List.lookup name TOOLS_IMPL).isSome = true)
    (hm : List.lookup name TOOLS_MODELS = some m)
    (hparams : List.lookup "params" kvs = some (.obj pkvs))
    (hval : pmValidate m pkvs = .error data) :
    handle_jsonrpc cfg env hdr (.obj kvs) =
      (.reply (errEnvelope ((List.lookup "id" kvs).getD .null) (-32602)
         "Invalid params" (some data)), []) := by
  have htr := truthy_str_of_tool mstr hpre
  simp only [handle_jsonrpc, hauth, Bool.not_true, Bool.false_eq_true,
    if_false, dispatch_body, hmethod, Option.getD_some, htr, hpre, hname,
    himpl, if_true, runTool, hm, hparams, hval, outcomeEnvelope]

/-- C1 witness: a `fetch_news` request whose `topic` is a number fails
validation and is answered `-32602 Invalid params` with no effect. -/
theorem invalid_object_params_rejected_witness :
    handle_jsonrpc cfgEx envEx (some "k")
      (Json.obj [("id", Json.num 2), ("method", Json.str "tool.fetch_news"),
        ("params", Json.obj [("topic", Json.num 3), ("date", Json.str "d")])]) =
      (.reply (errEnvelope (Json.num 2) (-32602) "Invalid params"
         (some (vErr "topic" "str type expected"))), []) :=
  invalid_object_params_rejected cfgEx envEx (some "k")
    [("id", Json.num 2), ("method", Json.str "tool.fetch_news"),
     ("params", Json.obj [("topic", Json.num 3), ("date", Json.str "d")])]
    [("topic", Json.num 3), ("date", Json.str "d")]
    "tool.fetch_news" "fetch_news" .fetchNewsParams
    (vErr "topic" "str type expected")
    rfl rfl (by decide) (by decide) rfl rfl rfl rfl

/-- C4: dispatch is a direct table lookup. With a valid key: a request
whose `method` is absent, or is a string not starting with `tool.`, is
answered `-32601` with no handler invoked (empty effect trace); one
whose tool name (the part after the first dot) is not a registry key is
answered `-32601` likewise; and for `tool.<name>` with `<name>` a
registry key, the response wraps exactly that name's `runTool` outcome,
and `runTool` on validated params invokes exactly the handler registered
under that name. -/
theorem method_dispatch_table_lookup :
    (∀ (cfg : Config) (env : Env) (hdr : Option String)
       (kvs : List (String × Json)),
       check_api_key cfg hdr = true →
       List.lookup "method" kvs = none →
       handle_jsonrpc cfg env hdr (.obj kvs) =
         (.reply (errEnvelope ((List.lookup "id" kvs).getD .null) (-32601)
            "Method not found" none), [])) ∧
    (∀ (cfg : Config) (env : Env) (hdr : Option String)
       (kvs : List (String × Json)) (mstr : String),
       check_api_key cfg hdr = true →
       List.lookup "method" kvs = some (.str mstr) →
       pyStartsWith mstr "tool." = false →
       handle_jsonrpc cfg env hdr (.obj kvs) =
         (.reply (errEnvelope ((List.lookup "id" kvs).getD .null) (-32601)
            "Method not found" none), [])) ∧
    (∀ (cfg : Config) (env : Env) (hdr : Option String)
       (kvs : List (String × Json)) (mstr : String),
       check_api_key cfg hdr = true →
       List.lookup "method" kvs = some (.str mstr) →
       pyStartsWith mstr "tool." = true →
       List.lookup (pyDrop mstr 5) TOOLS_IMPL = none →
       handle_jsonrpc cfg env hdr (.obj kvs) =
         (.reply (errEnvelope ((List.lookup "id" kvs).getD .null) (-32601)
            "Tool not found" none), [])) ∧
    (∀ (cfg : Config) (env : Env) (hdr : Option String)
       (kvs : List (String × Json)) (mstr : String) (impl : ToolImpl),
       check_api_key cfg hdr = true →
       List.lookup "method" kvs = some (.str mstr) →
       pyStartsWith mstr "tool." = true →
       List.lookup (pyDrop mstr 5) TOOLS_IMPL = some impl →
       (handle_jsonrpc cfg env hdr (.obj kvs) =
          (.reply (outcomeEnvelope ((List.lookup "id" kvs).getD .null)
             (runTool cfg env (pyDrop mstr 5)
               ((List.lookup "params" kvs).getD (Json.obj []))).1),
           (runTool cfg env (pyDrop mstr 5)
             ((List.lookup "params" kvs).getD (Json.obj []))).2) ∧
        ∀ (m : ParamsModel) (pkvs : List (String × Json)) (args : ValidatedArgs),
          List.lookup (pyDrop mstr 5) TOOLS_MODELS = some m →
          (List.lookup "params" kvs).getD (Json.obj []) = .obj pkvs →
          pmValidate m pkvs = .ok args →
          runTool cfg env (pyDrop mstr 5) (.obj pkvs) =
            (match impl cfg env args with
             | (.ok r, effs) => (.success r, effs)
             | (.error e, effs) => (.serverError e, effs)))) := by
  refine ⟨?_, ?_, ?_, ?_⟩
  · intro cfg env hdr kvs hauth hmethod
    simp only [handle_jsonrpc, hauth, Bool.not_true, Bool.false_eq_true,
      if_false, dispatch_body, hmethod, Option.getD_none, truthy,
      Bool.not_false, if_true]
  · intro cfg env hdr kvs mstr hauth hmethod hpre
    cases h0 : (mstr == "") with
    | true =>
      have htr : truthy (.str mstr) = false := by
        simp only [truthy, bne, h0, Bool.not_true]
      simp only [handle_jsonrpc, hauth, Bool.not_true, Bool.false_eq_true,
        if_false, dispatch_body, hmethod, Option.getD_some, htr,
        Bool.not_false, if_true]
    | false =>
      have htr : truthy (.str mstr) = true := by
        simp only [truthy, bne, h0, Bool.not_false]
      simp only [handle_jsonrpc, hauth, Bool.not_true, Bool.false_eq_true,
        if_false, dispatch_body, hmethod, Option.getD_some, htr, hpre,
        Bool.not_false, if_true]
  · intro cfg env hdr kvs mstr hauth hmethod hpre himpl
    have htr := truthy_str_of_tool mstr hpre
    have hnone : (List.lookup (pyDrop mstr 5) TOOLS_IMPL).isSome = false := by
      rw [himpl]; rfl
    simp only [handle_jsonrpc, hauth, Bool.not_true, Bool.false_eq_true,
      if_false, dispatch_body, hmethod, Option.getD_some, htr, hpre, hnone,
      Bool.not_false, if_true]
  · intro cfg env hdr kvs mstr impl hauth hmethod hpre himpl
    have htr := truthy_str_of_tool mstr hpre
    have hsome : (List.lookup (pyDrop mstr 5) TOOLS_IMPL).isSome = true := by
      rw [himpl]; rfl
    constructor
    · simp only [handle_jsonrpc, hauth, Bool.not_true, Bool.false_eq_true,
        if_false, dispatch_body, hmethod, Option.getD_some, htr, hpre, hsome,
        if_true]
    · intro m pkvs args hm hp hval
      simp only [runTool, hm, hval, himpl]

/-- C4 witness: the three `-32601` modes and the selection of the
registered `fetch_news` handler, each at a concrete request. -/
theorem method_dispatch_table_lookup_witness :
    handle_jsonrpc cfgEx envEx (some "k") (Json.obj [("id", Json.num 7)]) =
      (.reply (errEnvelope (Json.num 7) (-32601) "Method not found" none), []) ∧
    handle_jsonrpc cfgEx envEx (some "k")
      (Json.obj [("id", Json.num 7), ("method", Json.str "ping")]) =
      (.reply (errEnvelope (Json.num 7) (-32601) "Method not found" none), []) ∧
    handle_jsonrpc cfgEx envEx (some "k")
      (Json.obj [("id", Json.num 7), ("method", Json.str "tool.nope")]) =
      (.reply (errEnvelope (Json.num 7) (-32601) "Tool not found" none), []) ∧
    handle_jsonrpc cfgEx envEx (some "k")
      (Json.obj [("method", Json.str "tool.fetch_news"),
        ("params", Json.obj [("topic", Json.str "ai"), ("date", Json.str "d")])]) =
      (.reply (okEnvelope Json.null (Json.arr [Json.obj [("title", Json.str "t1")]])),
       [Effect.newsApiGet NEWS_API_URL
          [("q", "ai"), ("apiKey", "nk"), ("pageSize", "5"), ("language", "en"),
           ("from", "d"), ("to", "d")]]) ∧
    runTool cfgEx envEx "fetch_news"
      (Json.obj [("topic", Json.str "ai"), ("date", Json.str "d")]) =
      (.success (Json.arr [Json.obj [("title", Json.str "t1")]]),
       [Effect.newsApiGet NEWS_API_URL
          [("q", "ai"), ("apiKey", "nk"), ("pageSize", "5"), ("language", "en"),
           ("from", "d"), ("to", "d")]]) :=
  ⟨method_dispatch_table_lookup.1 cfgEx envEx (some "k") [("id", Json.num 7)]
     rfl rfl,
   (method_dispatch_table_lookup.2.1 cfgEx envEx (some "k")
     [("id", Json.num 7), ("method", Json.str "ping")] "ping" rfl rfl (by decide)),
   (method_dispatch_table_lookup.2.2.1 cfgEx envEx (some "k")
     [("id", Json.num 7), ("method", Json.str "tool.nope")] "tool.nope"
     rfl rfl (by decide) rfl),
   ((method_dispatch_table_lookup.2.2.2 cfgEx envEx (some "k")
     [("method", Json.str "tool.fetch_news"),
      ("params", Json.obj [("topic", Json.str "ai"), ("date", Json.str "d")])]
     "tool.fetch_news" fetch_news_tool rfl rfl (by decide) rfl).1),
   ((method_dispatch_table_lookup.2.2.2 cfgEx envEx (some "k")
     [("method", Json.str "tool.fetch_news"),
      ("params", Json.obj [("topic", Json.str "ai"), ("date", Json.str "d")])]
     "tool.fetch_news" fetch_news_tool rfl rfl (by decide) rfl).2
     .fetchNewsParams [("topic", Json.str "ai"), ("date", Json.str "d")]
     (.fetchNews "ai" "d" 5) rfl rfl rfl)⟩

/-- C6: the news-API request built by `fetch_news` carries exactly the
topic as `q`, the count as `pageSize`, and the date as both `from` and
`to`; the operation performs that one GET and returns the `articles`
member of the decoded response object, the empty list when that member
is absent. -/
theorem fetch_news_echoes_params (cfg : Config) (env : Env)
    (topic date : String) (count : Int) (kvs : List (String × Json))
    (hresp : env.news (.str topic) date (.num count) = .ok (.obj kvs)) :
    (fetch_news_impl cfg env (.str topic) date (.num count)).2 =
      [Effect.newsApiGet NEWS_API_URL
        (newsQuery cfg (.str topic) date (.num count))] ∧
    List.lookup "q" (newsQuery cfg (.str topic) date (.num count)) =
      some topic ∧
    List.lookup "pageSize" (newsQuery cfg (.str topic) date (.num count)) =
      some (toString count) ∧
    List.lookup "from" (newsQuery cfg (.str topic) date (.num count)) =
      some date ∧
    List.lookup "to" (newsQuery cfg (.str topic) date (.num count)) =
      some date ∧
    (fetch_news_impl cfg env (.str topic) date (.num count)).1 =
      .ok ((List.lookup "articles" kvs).getD (Json.arr [])) ∧
    (List.lookup "articles" kvs = none →
       (fetch_news_impl cfg env (.str topic) date (.num count)).1 =
         .ok (Json.arr [])) := by
  refine ⟨?_, ?_, ?_, ?_, ?_, ?_, ?_⟩
  · simp [fetch_news_impl, hresp]
  · cases h : cfg.NEWS_API_KEY <;> simp only [newsQuery, h] <;> rfl
  · cases h : cfg.NEWS_API_KEY <;> simp only [newsQuery, h] <;> rfl
  · cases h : cfg.NEWS_API_KEY <;> simp only [newsQuery, h] <;> rfl
  · cases h : cfg.NEWS_API_KEY <;> simp only [newsQuery, h] <;> rfl
  · simp [fetch_news_impl, hresp]
  · intro hnone
    simp [fetch_news_impl, hresp, hnone]

/-- C6 witness: a concrete fetch with topic `ai`, date `d`, count 5
against an environment returning one article. -/
theorem fetch_news_echoes_params_witness :
    envEx.news (.str "ai") "d" (.num 5) =
      .ok (.obj [("articles", Json.arr [Json.obj [("title", Json.str "t1")]])]) ∧
    List.lookup "q" (newsQuery cfgEx (.str "ai") "d" (.num 5)) = some "ai" ∧
    List.lookup "pageSize" (newsQuery cfgEx (.str "ai") "d" (.num 5)) = some "5" ∧
    List.lookup "from" (newsQuery cfgEx (.str "ai") "d" (.num 5)) = some "d" ∧
    List.lookup "to" (newsQuery cfgEx (.str "ai") "d" (.num 5)) = some "d" ∧
    (fetch_news_impl cfgEx envEx (.str "ai") "d" (.num 5)).1 =
      .ok (Json.arr [Json.obj [("title", Json.str "t1")]]) := by
  have h := fetch_news_echoes_params cfgEx envEx "ai" "d" 5
    [("articles", Json.arr [Json.obj [("title", Json.str "t1")]])] rfl
  exact ⟨rfl, h.2.1, h.2.2.1, h.2.2.2.1, h.2.2.2.2.1, h.2.2.2.2.2.1⟩

/-- C7: the three registry tables carry exactly the same four keys in
the same order; `GET /mcp/registry` with a valid key returns the
metadata table; and every metadata entry repeats its key as `name`,
carries a non-empty description, and carries the schema of exactly the
parameter model the dispatcher validates against for that key. -/
theorem registry_tables_consistent :
    TOOLS_IMPL.map Prod.fst =
      ["fetch_news", "summarize_articles", "send_email", "smart_news_email"] ∧
    TOOLS_MODELS.map Prod.fst =
      ["fetch_news", "summarize_articles", "send_email", "smart_news_email"] ∧
    TOOLS_METADATA.map Prod.fst =
      ["fetch_news", "summarize_articles", "send_email", "smart_news_email"] ∧
    (∀ (cfg : Config) (hdr : Option String), check_api_key cfg hdr = true →
       get_registry cfg hdr =
         .reply (Json.obj [("tools", Json.obj TOOLS_METADATA)])) ∧
    (∀ (name : String) (meta : Json),
       List.lookup name TOOLS_METADATA = some meta →
       ∃ m, List.lookup name TOOLS_MODELS = some m ∧
         jget meta "name" = some (.str name) ∧
         (∃ d, jget meta "description" = some (.str d) ∧ d ≠ "") ∧
         jget meta "params_schema" = some (ParamsModel.schema m)) := by
  refine ⟨rfl, rfl, rfl, ?_, ?_⟩
  · intro cfg hdr h
    simp [get_registry, h]
  · intro name meta h
    by_cases h1 : name = "fetch_news"
    · subst h1
      have hm := Option.some.inj h
      subst hm
      exact ⟨.fetchNewsParams, rfl, rfl, ⟨"Fetch news articles", rfl, by decide⟩, rfl⟩
    · by_cases h2 : name = "summarize_articles"
      · subst h2
        have hm := Option.some.inj h
        subst hm
        exact ⟨.summarizeParams, rfl, rfl,
          ⟨"Summarize articles with OpenAI", rfl, by decide⟩, rfl⟩
      · by_cases h3 : name = "send_email"
        · subst h3
          have hm := Option.some.inj h
          subst hm
          exact ⟨.sendEmailParams, rfl, rfl,
            ⟨"Send HTML email via SMTP", rfl, by decide⟩, rfl⟩
        · by_cases h4 : name = "smart_news_email"
          · subst h4
            have hm := Option.some.inj h
            subst hm
            exact ⟨.smartNewsEmailParams, rfl, rfl,
              ⟨"Fetch multiple topics, summarize, save HTML, and send email",
               rfl, by decide⟩, rfl⟩
          · have e1 : (name == "fetch_news") = false :=
              beq_eq_false_iff_ne.mpr h1
            have e2 : (name == "summarize_articles") = false :=
              beq_eq_false_iff_ne.mpr h2
            have e3 : (name == "send_email") = false :=
              beq_eq_false_iff_ne.mpr h3
            have e4 : (name == "smart_news_email") = false :=
              beq_eq_false_iff_ne.mpr h4
            simp only [TOOLS_METADATA, List.lookup, e1, e2, e3, e4] at h
            exact Option.noConfusion h

/-- C7 witness: the registry response at a concrete configuration, and
the metadata/model agreement at the key `fetch_news`. -/
theorem registry_tables_consistent_witness :
    get_registry cfgEx (some "k") =
      .reply (Json.obj [("tools", Json.obj TOOLS_METADATA)]) ∧
    (∃ m, List.lookup "fetch_news" TOOLS_MODELS = some m ∧
      jget (Json.obj
        [("name", .str "fetch_news"),
         ("description", .str "Fetch news articles"),
         ("params_schema", ParamsModel.fetchNewsParams.schema)]) "name" =
        some (.str "fetch_news") ∧
      (∃ d, jget (Json.obj
        [("name", .str "fetch_news"),
         ("description", .str "Fetch news articles"),
         ("params_schema", ParamsModel.fetchNewsParams.schema)]) "description" =
        some (.str d) ∧ d ≠ "") ∧
      jget (Json.obj
        [("name", .str "fetch_news"),
         ("description", .str "Fetch news articles"),
         ("params_schema", ParamsModel.fetchNewsParams.schema)]) "params_schema" =
        some (ParamsModel.schema m)) := by
  refine ⟨registry_tables_consistent.2.2.2.1 cfgEx (some "k") rfl, ?_⟩
  exact registry_tables_consistent.2.2.2.2 "fetch_news"
    (Json.obj
      [("name", .str "fetch_news"),
       ("description", .str "Fetch news articles"),
       ("params_schema", ParamsModel.fetchNewsParams.schema)]) rfl

/-- The fetch handler's trace is exactly one news-API GET. -/
theorem fetch_news_impl_effects (cfg : Config) (env : Env) (topic : Json)
    (date : String) (count : Json) :
    (fetch_news_impl cfg env topic date count).2 =
      [Effect.newsApiGet NEWS_API_URL (newsQuery cfg topic date count)] := by
  simp only [fetch_news_impl]
  rcases env.news topic date count with e | body
  · rfl
  · cases body <;> rfl

/-- The summarize handler's trace is empty or one LLM call. -/
theorem summarize_articles_impl_effects (cfg : Config) (env : Env)
    (arts : List Json) :
    (summarize_articles_impl cfg env arts).2 = [] ∨
    ∃ t, (summarize_articles_impl cfg env arts).2 =
      [Effect.llmCall "gpt-4o-mini" systemPrompt t] := by
  simp only [summarize_articles_impl]
  split
  · exact Or.inl rfl
  · split
    · exact Or.inl rfl
    · split
      · exact Or.inl rfl
      · split
        · exact Or.inr ⟨_, rfl⟩
        · exact Or.inr ⟨_, rfl⟩

/-- The send handler's trace is exactly one SMTP interaction. -/
theorem send_email_impl_effects (cfg : Config) (env : Env)
    (to_email subject body : String) :
    (send_email_impl cfg env to_email subject body).2 =
      [Effect.smtpSend cfg.SMTP_HOST cfg.SMTP_PORT cfg.SMTP_USER to_email
         subject body] := by
  simp only [send_email_impl]
  rcases env.smtp to_email subject body with e | u <;> rfl

/-- Every effect of the topic loop is a news-API GET. -/
theorem fetchLoop_effects_newsApi (cfg : Config) (env : Env) (date : String) :
    ∀ (topics acc : List Json) (e : Effect),
      e ∈ (fetchLoop cfg env date topics acc).2 →
      ∃ u q, e = Effect.newsApiGet u q := by
  intro topics
  induction topics with
  | nil => intro acc e he; simp [fetchLoop] at he
  | cons t rest ih =>
    intro acc e he
    simp only [fetchLoop] at he
    rcases h1 : pyGetItem t "topic" with e1 | tp <;> simp only [h1] at he
    · simp at he
    · rcases h2 : fetch_news_impl cfg env tp date (pyGetD t "count" (Json.num 5))
        with ⟨res, effs⟩
      simp only [h2] at he
      have heffs : effs =
          [Effect.newsApiGet NEWS_API_URL
            (newsQuery cfg tp date (pyGetD t "count" (Json.num 5)))] := by
        have h3 := fetch_news_impl_effects cfg env tp date (pyGetD t "count" (Json.num 5))
        rw [h2] at h3
        exact h3
      rcases res with e2 | arts
      · subst heffs; simp at he; subst he; exact ⟨_, _, rfl⟩
      · rcases h4 : pyExtend acc arts with e3 | acc2 <;> simp only [h4] at he
        · subst heffs; simp at he; subst he; exact ⟨_, _, rfl⟩
        · rw [List.mem_append] at he
          rcases he with he | he
          · subst heffs; simp at he; subst he; exact ⟨_, _, rfl⟩
          · exact ih acc2 e he

/-- C8 counterexample: the handlers are not pure-but-for-external-calls
as claimed — invoking `smart_news_email` changes the server's own
filesystem. At a concrete invocation its effect trace contains a local
file write (of `news_summary_2025-10-02.html`), an effect that is none
of the news-API, LLM or SMTP calls. -/
theorem smart_news_email_writes_file :
    ((smart_news_email_impl cfgEx envNoNews "2025-10-02" "a@b.c"
        [Json.obj [("topic", Json.str "x")]]).2.all Effect.isExternalCall) = false ∧
    Effect.fileWrite "news_summary_2025-10-02.html"
        "<p>No news found for the selected topics/date.</p>" ∈
      (smart_news_email_impl cfgEx envNoNews "2025-10-02" "a@b.c"
        [Json.obj [("topic", Json.str "x")]]).2 := by
  refine ⟨rfl, ?_⟩
  have h : (smart_news_email_impl cfgEx envNoNews "2025-10-02" "a@b.c"
      [Json.obj [("topic", Json.str "x")]]).2 =
      [Effect.newsApiGet NEWS_API_URL
         [("q", "x"), ("apiKey", "nk"), ("pageSize", "5"), ("language", "en"),
          ("from", "2025-10-02"), ("to", "2025-10-02")],
       Effect.fileWrite "news_summary_2025-10-02.html"
         "<p>No news found for the selected topics/date.</p>",
       Effect.smtpSend "smtp.example.com" 465 (some "news@example.com") "a@b.c"
         "Daily News Summary - 2025-10-02"
         "<p>No news found for the selected topics/date.</p>"] := rfl
  rw [h]
  exact List.Mem.tail _ (List.Mem.head _)

/-- C8 (amended): each handler leaves the registry tables and the
configuration untouched (they are read-only inputs in this embedding)
and, apart from its parameters, touches only the external news-API,
LLM and SMTP services — except that `smart_news_email` additionally
writes one local file, `news_summary_<date>.html`, holding the summary.
The other three handlers produce external calls only. -/
theorem handler_effects_frame :
    (∀ (cfg : Config) (env : Env) (topic : Json) (date : String)
       (count : Json) (e : Effect),
       e ∈ (fetch_news_impl cfg env topic date count).2 →
       e.isExternalCall = true) ∧
    (∀ (cfg : Config) (env : Env) (arts : List Json) (e : Effect),
       e ∈ (summarize_articles_impl cfg env arts).2 →
       e.isExternalCall = true) ∧
    (∀ (cfg : Config) (env : Env) (to_email subject body : String) (e : Effect),
       e ∈ (send_email_impl cfg env to_email subject body).2 →
       e.isExternalCall = true) ∧
    (∀ (cfg : Config) (env : Env) (date email : String) (topics : List Json)
       (e : Effect),
       e ∈ (smart_news_email_impl cfg env date email topics).2 →
       e.isExternalCall = true ∨
       ∃ content, e = .fileWrite ("news_summary_" ++ date ++ ".html") content) := by
  refine ⟨?_, ?_, ?_, ?_⟩
  · intro cfg env topic date count e he
    rw [fetch_news_impl_effects] at he
    simp at he
    subst he
    rfl
  · intro cfg env arts e he
    rcases summarize_articles_impl_effects cfg env arts with h | ⟨t, h⟩ <;>
      rw [h] at he
    · simp at he
    · simp at he
      subst he
      rfl
  · intro cfg env to_email subject body e he
    rw [send_email_impl_effects] at he
    simp at he
    subst he
    rfl
  · intro cfg env date email topics e he
    simp only [smart_news_email_impl] at he
    rcases h1 : fetchLoop cfg env date topics [] with ⟨res, effs⟩
    simp only [h1] at he
    have hloop : ∀ x ∈ effs, ∃ u q, x = Effect.newsApiGet u q := by
      intro x hx
      refine fetchLoop_effects_newsApi cfg env date topics [] x ?_
      rw [h1]
      exact hx
    rcases res with e1 | arts
    · obtain ⟨u, q, rfl⟩ := hloop e he
      exact Or.inl rfl
    · rcases h2 : summarize_articles_impl cfg env arts with ⟨res2, effs2⟩
      simp only [h2] at he
      have hsum0 := summarize_articles_impl_effects cfg env arts
      rw [h2] at hsum0
      have hsum : effs2 = [] ∨
          ∃ t, effs2 = [Effect.llmCall "gpt-4o-mini" systemPrompt t] := hsum0
      have hsumMem : ∀ x ∈ effs2, ∃ t, x = Effect.llmCall "gpt-4o-mini" systemPrompt t := by
        intro x hx
        rcases hsum with h0 | ⟨t, h0⟩
        · rw [h0] at hx; simp at hx
        · rw [h0] at hx; simp at hx; exact ⟨t, hx⟩
      rcases res2 with e2 | summary
      · rw [List.mem_append] at he
        rcases he with he | he
        · obtain ⟨u, q, rfl⟩ := hloop e he
          exact Or.inl rfl
        · obtain ⟨t, rfl⟩ := hsumMem e he
          exact Or.inl rfl
      · rcases h3 : send_email_impl cfg env email ("Daily News Summary - " ++ date)
          summary with ⟨res3, effs3⟩
        simp only [h3] at he
        have hsend : effs3 = [Effect.smtpSend cfg.SMTP_HOST cfg.SMTP_PORT
            cfg.SMTP_USER email ("Daily News Summary - " ++ date) summary] := by
          have h4 := send_email_impl_effects cfg env email
            ("Daily News Summary - " ++ date) summary
          rw [h3] at h4
          exact h4
        have hmem : e ∈ effs ++ effs2 ++
            [Effect.fileWrite ("news_summary_" ++ date ++ ".html") summary] ++
            effs3 := by
          rcases res3 with e3 | u3 <;> exact he
        rw [List.mem_append, List.mem_append, List.mem_append] at hmem
        rcases hmem with ((he | he) | he) | he
        · obtain ⟨u, q, rfl⟩ := hloop e he
          exact Or.inl rfl
        · obtain ⟨t, rfl⟩ := hsumMem e he
          exact Or.inl rfl
        · simp at he
          subst he
          exact Or.inr ⟨summary, rfl⟩
        · rw [hsend] at he
          simp at he
          subst he
          exact Or.inl rfl

/-- C8 witness: the amended frame at concrete invocations — a fetch
effect and a send effect are external calls, and the file-write effect
of `smart_news_email` is the summary file for its date. -/
theorem handler_effects_frame_witness :
    (Effect.newsApiGet NEWS_API_URL
       (newsQuery cfgEx (.str "ai") "d" (.num 5))).isExternalCall = true ∧
    (Effect.smtpSend "smtp.example.com" 465 (some "news@example.com") "a@b.c"
       "s" "b").isExternalCall = true ∧
    ((Effect.fileWrite "news_summary_2025-10-02.html"
        "<p>No news found for the selected topics/date.</p>").isExternalCall = true ∨
     ∃ content, Effect.fileWrite "news_summary_2025-10-02.html"
        "<p>No news found for the selected topics/date.</p>" =
       .fileWrite ("news_summary_" ++ "2025-10-02" ++ ".html") content) :=
  ⟨handler_effects_frame.1 cfgEx envEx (.str "ai") "d" (.num 5) _
     (List.Mem.head _),
   handler_effects_frame.2.2.1 cfgEx envEx "a@b.c" "s" "b" _
     (List.Mem.head _),
   handler_effects_frame.2.2.2 cfgEx envNoNews "2025-10-02" "a@b.c"
     [Json.obj [("topic", Json.str "x")]] _
     (List.Mem.tail _ (List.Mem.head _))⟩

/-- In the topic loop, an entry without `count` is processed exactly as
the same entry with `count: 5` (`t.get("count", 5)`). -/
theorem fetchLoop_count_absent (cfg : Config) (env : Env) (date s : String)
    (ts2 : List Json) :
    ∀ (ts1 acc : List Json),
      fetchLoop cfg env date (ts1 ++ Json.obj [("topic", Json.str s)] :: ts2) acc =
      fetchLoop cfg env date
        (ts1 ++ Json.obj [("topic", Json.str s), ("count", Json.num 5)] :: ts2) acc := by
  intro ts1
  induction ts1 with
  | nil => intro acc; rfl
  | cons t rest ih =>
    intro acc
    simp only [List.cons_append, fetchLoop]
    rcases h1 : pyGetItem t "topic" with e1 | tp
    all_goals simp only [h1]
    rcases h2 : fetch_news_impl cfg env tp date (pyGetD t "count" (Json.num 5))
      with ⟨res, effs⟩
    rcases res with e2 | arts
    · simp only [h2]
    · rcases h3 : pyExtend acc arts with e3 | acc2
      · simp only [h2, h3]
      · simp only [h2, h3, List.append_eq]
        rw [ih acc2]

/-- C9: an omitted `count` defaults to 5 — a `fetch_news` request
without `count` is dispatched exactly as the same request with
`count: 5`; validation fills a topic entry without `count` with 5; and
`smart_news_email` fetches a topic entry without `count` exactly as the
same entry with `count: 5`. -/
theorem count_defaults_to_five :
    (∀ (cfg : Config) (env : Env) (hdr : Option String) (i : Json)
       (t d : String),
       handle_jsonrpc cfg env hdr (Json.obj [("id", i),
         ("method", Json.str "tool.fetch_news"),
         ("params", Json.obj [("topic", Json.str t), ("date", Json.str d)])]) =
       handle_jsonrpc cfg env hdr (Json.obj [("id", i),
         ("method", Json.str "tool.fetch_news"),
         ("params", Json.obj [("topic", Json.str t), ("date", Json.str d),
                              ("count", Json.num 5)])])) ∧
    (∀ s : String, vTopicCount (Json.obj [("topic", Json.str s)]) =
       .ok (Json.obj [("topic", Json.str s), ("count", Json.num 5)])) ∧
    (∀ (cfg : Config) (env : Env) (date email s : String)
       (ts1 ts2 : List Json),
       smart_news_email_impl cfg env date email
         (ts1 ++ Json.obj [("topic", Json.str s)] :: ts2) =
       smart_news_email_impl cfg env date email
         (ts1 ++ Json.obj [("topic", Json.str s), ("count", Json.num 5)] :: ts2)) := by
  refine ⟨?_, ?_, ?_⟩
  · intro cfg env hdr i t d
    by_cases hc : check_api_key cfg hdr
    · simp only [handle_jsonrpc, hc]
      rfl
    · simp [handle_jsonrpc, hc]
  · intro s
    rfl
  · intro cfg env date email s ts1 ts2
    simp only [smart_news_email_impl]
    rw [fetchLoop_count_absent cfg env date s ts2 ts1 []]

/-- When the news API answers every topic with an article list, the
topic loop returns the concatenation in topic order and performs one
GET per topic, in order. -/
theorem fetchLoop_ok_of_articles (cfg : Config) (env : Env) (date : String)
    (L : String × Int → List Json) :
    ∀ (topics : List (String × Int)) (acc : List Json),
      (∀ p ∈ topics, env.news (.str p.1) date (.num p.2) =
         .ok (Json.obj [("articles", Json.arr (L p))])) →
      fetchLoop cfg env date
        (topics.map fun p => Json.obj [("topic", Json.str p.1),
          ("count", Json.num p.2)]) acc =
      (.ok (acc ++ (topics.map L).flatten),
       topics.map fun p =>
         Effect.newsApiGet NEWS_API_URL (newsQuery cfg (.str p.1) date (.num p.2))) := by
  intro topics
  induction topics with
  | nil => intro acc h; simp [fetchLoop]
  | cons p rest ih =>
    intro acc h
    have hp := h p (List.mem_cons_self p rest)
    have hf : fetch_news_impl cfg env (.str p.1) date (.num p.2) =
        (.ok (Json.arr (L p)),
         [Effect.newsApiGet NEWS_API_URL
            (newsQuery cfg (.str p.1) date (.num p.2))]) := by
      simp [fetch_news_impl, hp]
    have hrest : ∀ q ∈ rest, env.news (.str q.1) date (.num q.2) =
        .ok (Json.obj [("articles", Json.arr (L q))]) :=
      fun q hq => h q (List.mem_cons_of_mem p hq)
    have hg : pyGetItem (Json.obj [("topic", Json.str p.1),
        ("count", Json.num p.2)]) "topic" = .ok (Json.str p.1) := rfl
    have hd : pyGetD (Json.obj [("topic", Json.str p.1),
        ("count", Json.num p.2)]) "count" (Json.num 5) = Json.num p.2 := rfl
    simp only [List.map_cons, fetchLoop, hg, hd, hf, pyExtend]
    rw [ih (acc ++ L p) hrest]
    simp [List.append_assoc]

/-- C5: on the success path, `smart_news_email` fetches each topic in
list order (one news-API GET per topic, in order), concatenates the
article lists in that order, produces one LLM summary of the
concatenation, writes that summary to `news_summary_<date>.html`,
emails it to the given address with subject
`Daily News Summary - <date>`, and returns the success object naming
that file. -/
theorem smart_news_email_pipeline (cfg : Config) (env : Env)
    (date email raw : String) (topics : List (String × Int))
    (L : String × Int → List Json) (texts : List String)
    (hclient : hasClient cfg = true)
    (hfetch : ∀ p ∈ topics, env.news (.str p.1) date (.num p.2) =
       .ok (Json.obj [("articles", Json.arr (L p))]))
    (hne : (topics.map L).flatten ≠ [])
    (htexts : newsItemTexts ((topics.map L).flatten) = .ok texts)
    (hllm : env.llm (String.intercalate "\n\n" texts) = .ok raw)
    (hsmtp : env.smtp email ("Daily News Summary - " ++ date) (pyStrip raw) =
       .ok ()) :
    smart_news_email_impl cfg env date email
      (topics.map fun p => Json.obj [("topic", Json.str p.1),
        ("count", Json.num p.2)]) =
    (.ok (Json.obj [("status", Json.str "success"),
        ("file", Json.str ("news_summary_" ++ date ++ ".html"))]),
     (topics.map fun p =>
        Effect.newsApiGet NEWS_API_URL (newsQuery cfg (.str p.1) date (.num p.2))) ++
     [Effect.llmCall "gpt-4o-mini" systemPrompt (String.intercalate "\n\n" texts)] ++
     [Effect.fileWrite ("news_summary_" ++ date ++ ".html") (pyStrip raw)] ++
     [Effect.smtpSend cfg.SMTP_HOST cfg.SMTP_PORT cfg.SMTP_USER email
        ("Daily News Summary - " ++ date) (pyStrip raw)]) := by
  have hie : ((topics.map L).flatten).isEmpty = false := by
    cases h0 : ((topics.map L).flatten).isEmpty
    · rfl
    · exact absurd (List.isEmpty_iff.mp h0) hne
  have hsum : summarize_articles_impl cfg env ((topics.map L).flatten) =
      (.ok (pyStrip raw),
       [Effect.llmCall "gpt-4o-mini" systemPrompt
          (String.intercalate "\n\n" texts)]) := by
    simp only [summarize_articles_impl, hie, Bool.false_eq_true, if_false,
      htexts, hclient, Bool.not_true, hllm]
  have hloop := fetchLoop_ok_of_articles cfg env date L topics [] hfetch
  rw [List.nil_append] at hloop
  simp only [smart_news_email_impl, hloop, hsum, send_email_impl, hsmtp]

/-- C5 witness: one topic `a` with count 2, a news API returning one
article, an LLM returning a summary, and a working mail transport; the
operation writes and mails the stripped summary and reports success. -/
theorem smart_news_email_pipeline_witness :
    smart_news_email_impl cfgEx envEx "d" "a@b.c"
      [Json.obj [("topic", Json.str "a"), ("count", Json.num 2)]] =
    (.ok (Json.obj [("status", Json.str "success"),
        ("file", Json.str "news_summary_d.html")]),
     [Effect.newsApiGet NEWS_API_URL
        [("q", "a"), ("apiKey", "nk"), ("pageSize", "2"), ("language", "en"),
         ("from", "d"), ("to", "d")],
      Effect.llmCall "gpt-4o-mini" systemPrompt
        "Title: t1\nDate: None\nContent: None\nLink: None",
      Effect.fileWrite "news_summary_d.html" "S",
      Effect.smtpSend "smtp.example.com" 465 (some "news@example.com") "a@b.c"
        "Daily News Summary - d" "S"]) :=
  smart_news_email_pipeline cfgEx envEx "d" "a@b.c" " S " [("a", 2)]
    (fun _ => [Json.obj [("title", Json.str "t1")]])
    ["Title: t1\nDate: None\nContent: None\nLink: None"]
    rfl
    (by intro p hp; rfl)
    (by simp)
    rfl rfl rfl

end SmartNews
